import Mathlib

/-!
Verification of the Pyatoa misfit-quantification workflow core: the per-station
Manager/Crate state machine (`manager_withcrate.py`), the Pyaflowa event
orchestrator (`pyaflowa.py`) and the solver-facing output writers (`write.py`).

Python floats are modelled as rationals (ℚ); Python exceptions as `Except`
results (or `Option` with `none` for the raising path); mutable objects as
explicit state records.  Each definition is a direct translation of the
corresponding Python function.
-/

namespace Pyatoa

/-! ## String helpers mirroring the Python string operations used by the code -/

/-- Python `str.upper` on the ASCII policy strings. -/
def py_upper (s : String) : String := String.mk (s.data.map Char.toUpper)

/-- Python `str.replace(old, new)` for single-character arguments is a
character-wise map. -/
def py_replace (old new : Char) (s : String) : String :=
  String.mk (s.data.map (fun ch => if ch = old then new else ch))

/-- Python `s[:-1]`: drop the final character. -/
def py_drop_last (s : String) : String := String.mk s.data.dropLast

/-- Helper for `py_split_char`: split a character list at every separator,
keeping empty fields (Python `str.split(sep)` semantics). -/
def split_char_aux (sep : Char) : List Char → List Char → List String
  | [], cur => [String.mk cur.reverse]
  | ch :: rest, cur =>
      if ch = sep then String.mk cur.reverse :: split_char_aux sep rest []
      else split_char_aux sep rest (ch :: cur)

/-- Python `str.split(sep)` with a one-character separator. -/
def py_split_char (sep : Char) (s : String) : List String :=
  split_char_aux sep s.data []

/-- Helper for `py_split_ws`: split at whitespace runs, dropping empty
fields (Python no-argument `str.split()` semantics). -/
def split_ws_aux : List Char → List Char → List String
  | [], cur => if cur.isEmpty then [] else [String.mk cur.reverse]
  | ch :: rest, cur =>
      if ch = ' ' ∨ ch = '\t' then
        if cur.isEmpty then split_ws_aux rest []
        else String.mk cur.reverse :: split_ws_aux rest []
      else split_ws_aux rest (ch :: cur)

/-- Python no-argument `str.split()`: split on whitespace runs. -/
def py_split_ws (s : String) : List String := split_ws_aux s.data []

/-- Python `os.path.basename` on slash-separated paths. -/
def py_basename (s : String) : String := (s.splitOn "/").getLastD ""

/-! ## Misfit scaling (pyaflowa.py `Pyaflowa._scale_raw_event_misfit`,
write.py `write_misfit`) -/

/-- `Pyaflowa._scale_raw_event_misfit`: `return 0.5 * raw_misfit / nwin`.
A zero window count raises `ZeroDivisionError` in Python, modelled as
`Except.error ()`. -/
def scale_raw_event_misfit (raw_misfit : ℚ) (nwin : ℤ) : Except Unit ℚ :=
  if nwin = 0 then Except.error ()
  else Except.ok (1/2 * raw_misfit / (nwin : ℚ))

/-- The scalar computed by `write_misfit`: it sums the `misfit_value` of every
adjoint source stored under the (model, step) tag and divides half the total by
the number of stored misfit windows (`scaled_misfit = 0.5 * total_misfit /
number_windows`).  Division by a zero window count raises, modelled as
`Except.error ()`. -/
def write_misfit_scaled (adj_misfits : List ℚ) (window_count : ℕ) : Except Unit ℚ :=
  let total_misfit := adj_misfits.foldl (· + ·) 0
  if (window_count : ℤ) = 0 then Except.error ()
  else Except.ok (1/2 * total_misfit / (window_count : ℚ))

/-! ## Fixed-window decision (pyaflowa.py `Pyaflowa._check_fix_windows`) -/

/-- The `fix_windows` user parameter may be a Python bool or a string. -/
inductive FixWindows
  | bool : Bool → FixWindows
  | str : String → FixWindows
deriving DecidableEq

/-- `Pyaflowa._check_fix_windows`, as a function of the configured iteration,
step count and the SeisFlows begin-iteration.  Exceptional exits are modelled
as `Except.error`: an unrecognized policy string leaves the local variable
unbound (`UnboundLocalError` at the final kwarg assignment), and a policy that
is neither bool nor str raises `NotImplementedError` (not representable in
`FixWindows`, which covers exactly the two accepted shapes). -/
def check_fix_windows (iteration step_count begin_iter : ℤ)
    (fix_windows : FixWindows) : Except String Bool :=
  if iteration = 1 ∧ step_count = 0 then Except.ok false
  else
    match fix_windows with
    | FixWindows.str s =>
        if py_upper s = "ITER" then
          if step_count = 0 then Except.ok false else Except.ok true
        else if py_upper s = "ONCE" then
          if iteration = begin_iter ∧ step_count = 0 then Except.ok false
          else Except.ok true
        else Except.error "UnboundLocalError"
    | FixWindows.bool b => Except.ok b

/-! ## Event aggregation state and `Pyaflowa.finalize` (pyaflowa.py) -/

/-- The `IO` attribute dictionary carried through one event of processing:
running totals of raw misfit, window count, stations attempted, stations
successfully processed, unexpected exceptions, the per-station plot file
identifiers, and the messages written to the event logger. -/
structure IOState where
  misfit : ℚ
  nwin : ℤ
  stations : ℕ
  processed : ℕ
  exceptions : ℕ
  plot_fids : List String
  log : List String
deriving DecidableEq

/-- The value returned by `Pyaflowa.finalize`: `if io.misfit:` (Python float
truthiness, i.e. `misfit ≠ 0`) return `_scale_raw_event_misfit(io.misfit,
io.nwin)`, else return `None`.  The file-writing side effects of `finalize`
(event pdf, STATIONS_ADJOINT, log summary) do not influence the return value
and are modelled separately. -/
def finalize (st : IOState) : Except Unit (Option ℚ) :=
  if st.misfit ≠ 0 then
    match scale_raw_event_misfit st.misfit st.nwin with
    | Except.ok v => Except.ok (some v)
    | Except.error e => Except.error e
  else Except.ok none

/-! ## Process-global log handlers (pyaflowa.py
`Pyaflowa._create_event_log_handler`, called once per `Pyaflowa.setup`) -/

/-- The process-global logging registry, modelled as the number of handlers
attached to each named logger. -/
def LogRegistry := String → ℕ

/-- The loggers that `_create_event_log_handler` attaches its handler to. -/
def pyaflowa_logger_names : List String := ["pyflex", "pyadjoint", "pyatoa"]

/-- `Pyaflowa._create_event_log_handler`: builds a fresh `FileHandler` and,
for each of the loggers `pyflex`, `pyadjoint`, `pyatoa`, sets the level and
calls `addHandler`.  Since the handler object is newly created on each call,
`addHandler` always appends it; no previous handler is removed or replaced. -/
def create_event_log_handler (reg : LogRegistry) : LogRegistry :=
  fun name => if name ∈ pyaflowa_logger_names then reg name + 1 else reg name

/-! ## Manager reset and launch (manager_withcrate.py `Manager.reset`,
`Manager.launch`) -/

/-- The Gatherer connection held by the Manager.  `id` tracks Python object
identity: `Gatherer(config=..., ds=...)` in `Manager.launch` constructs a
distinct new instance.  Modelled from the spec: the Gatherer class itself
(pyatoa.utils.gathering.data_gatherer, absent from src/) resolves and caches
the event for the current source; a freshly constructed Gatherer holds no
resolved event. -/
structure Gatherer where
  id : ℕ
  event : Option ℕ
deriving DecidableEq

/-- Modelled from the spec: `Gatherer.gather_event` (absent from src/)
queries the remote data service — here the ambient `remote` event — caches it
on the Gatherer and returns it. -/
def gather_event (remote : ℕ) (g : Gatherer) : Gatherer × ℕ :=
  ({ g with event := some remote }, remote)

/-- The Manager state relevant to `reset`/`launch`: a fresh-instance counter,
the (optional) Gatherer, the crate's event slot and the configured event id. -/
structure MState where
  next_id : ℕ
  gatherer : Option Gatherer
  crate_event : Option ℕ
  config_event_id : Option String
deriving DecidableEq

/-- `Manager.launch(reset=..., set_event=None)`: re-instantiate the Gatherer
if it is absent or `reset` is set; then copy an already-resolved event into
the crate, else query FDSN via `gather_event` when a config event id is
set. -/
def launch (remote : ℕ) (m : MState) (reset_flag : Bool) : MState :=
  let m1 :=
    if m.gatherer.isNone ∨ reset_flag then
      { m with gatherer := some ⟨m.next_id, none⟩, next_id := m.next_id + 1 }
    else m
  match m1.gatherer with
  | some g =>
      if g.event.isSome then { m1 with crate_event := g.event }
      else if m1.config_event_id.isSome then
        let ge := gather_event remote g
        { m1 with gatherer := some ge.1, crate_event := some ge.2 }
      else m1
  | none => m1

/-- `Manager.reset(choice)`: replace the crate with a fresh `Crate()` (its
event slot becomes `None`); when `choice == "soft"`, additionally call
`launch(reset=True)`. -/
def manager_reset (remote : ℕ) (m : MState) (choice : String) : MState :=
  let m1 := { m with crate_event := none }
  if choice = "soft" then launch remote m1 true else m1

/-! ## Crate and `Manager.gather_data` (manager_withcrate.py) -/

/-- The Crate fields populated by `gather_data`.  `none` models Python
`None`; `some` holds the object, whose Python truthiness is non-emptiness
(str, obspy Inventory and Stream all define truthiness by length).
Inventories and streams are modelled as lists of opaque items. -/
structure Crate where
  station_code : Option String
  inv : Option (List ℕ)
  st_obs : Option (List ℕ)
  st_syn : Option (List ℕ)
deriving DecidableEq

/-- Python truthiness of an optional string. -/
def truthy_str : Option String → Bool
  | none => false
  | some s => !(s == "")

/-- Python truthiness of an optional length-carrying object. -/
def truthy_list : Option (List ℕ) → Bool
  | none => false
  | some l => !l.isEmpty

/-- The Gatherer fetch operations used by `gather_data`.  Modelled from the
spec: the Gatherer (absent from src/) resolves a station code to station
response metadata, an observed stream and a synthetic stream; any failure
raises, modelled as `none`. -/
structure GatherFns where
  station : String → Option (List ℕ)
  observed : String → Option (List ℕ)
  synthetic : String → Option (List ℕ)

/-- Synthetic-stream step of the non-overwriting `gather_data` branch: fetch
only if the crate slot is falsy; a raised exception (`none`) ends the
gathering with the crate as filled so far. -/
def gd_syn (g : GatherFns) (code : String) (c : Crate) : Crate :=
  if truthy_list c.st_syn then c
  else
    match g.synthetic code with
    | none => c
    | some syn => { c with st_syn := some syn }

/-- Observed-stream step of the non-overwriting `gather_data` branch. -/
def gd_obs (g : GatherFns) (code : String) (c : Crate) : Crate :=
  if truthy_list c.st_obs then gd_syn g code c
  else
    match g.observed code with
    | none => c
    | some obs => gd_syn g code { c with st_obs := some obs }

/-- Inventory step of the non-overwriting `gather_data` branch. -/
def gd_inv (g : GatherFns) (code : String) (c : Crate) : Crate :=
  if truthy_list c.inv then gd_obs g code c
  else
    match g.station code with
    | none => c
    | some inv => gd_obs g code { c with inv := some inv }

/-- Station-code step of the non-overwriting `gather_data` branch: assign the
code only when the slot is falsy. -/
def gd_code (code : String) (c : Crate) : Crate :=
  if truthy_str c.station_code then c
  else { c with station_code := some code }

/-- `Manager.gather_data(station_code, overwrite)`.  With `overwrite` the
code assigns the station code and re-fetches inventory, observed and
synthetic streams unconditionally (a raised exception ends the sequence
early, keeping what was assigned); without it, each slot is fetched only if
it is currently falsy. -/
def gather_data (g : GatherFns) (code : String) (overwrite : Bool)
    (c : Crate) : Crate :=
  if overwrite then
    let c1 := { c with station_code := some code }
    match g.station code with
    | none => c1
    | some inv =>
      let c2 := { c1 with inv := some inv }
      match g.observed code with
      | none => c2
      | some obs =>
        let c3 := { c2 with st_obs := some obs }
        match g.synthetic code with
        | none => c3
        | some syn => { c3 with st_syn := some syn }
  else gd_inv g code (gd_code code c)

/-! ## Per-station orchestration (pyaflowa.py `Pyaflowa.process_station` and
the station loop of `Pyaflowa.process_event`) -/

/-- Outcome of running the Manager stages on one station.  Modelled from the
spec for the Manager used by Pyaflowa (pyatoa.core.manager, absent from
src/): `Manager.flow` either succeeds with per-station stats (misfit, window
count), fails with a categorized `ManagerError`, or raises an uncategorized
exception. -/
inductive FlowOutcome
  | ok : ℚ → ℤ → FlowOutcome
  | managerError : String → FlowOutcome
  | unexpected : String → FlowOutcome
deriving DecidableEq

/-- The external behaviour of one station's Manager run.  Modelled from the
spec: `Manager.gather` (absent from src/) "raises `GatherError`" — a
`pyatoa.ManagerError` — when any required input (inventory, observed data,
synthetic data) cannot be obtained. -/
structure StationRun where
  gather : Except String Unit
  flow : FlowOutcome

/-- `Pyaflowa.process_station`: log the station banner and count the attempt;
if `gather` raises a `ManagerError`, log the warning and return.  Otherwise
run `flow` (a `ManagerError` logs a warning; an uncategorized exception logs
and increments the exception counter), optionally record the plot artifact,
and on success accumulate misfit, window count and the processed counter
(the adjoint-source write to disk is modelled separately, see
`write_adj_src_to_ascii`). -/
def process_station (plot : Bool) (run : StationRun) (code : String)
    (st : IOState) : IOState :=
  let st0 := { st with log := st.log ++ [code], stations := st.stations + 1 }
  match run.gather with
  | Except.error e => { st0 with log := st0.log ++ [e] }
  | Except.ok _ =>
    let stepA :=
      match run.flow with
      | FlowOutcome.ok _ _ => st0
      | FlowOutcome.managerError e => { st0 with log := st0.log ++ [e] }
      | FlowOutcome.unexpected e =>
          { st0 with log := st0.log ++ [e], exceptions := st0.exceptions + 1 }
    let stepB :=
      if plot then
        { stepA with plot_fids := stepA.plot_fids ++ [code ++ ".pdf"] }
      else stepA
    match run.flow with
    | FlowOutcome.ok m w =>
        { stepB with misfit := stepB.misfit + m, nwin := stepB.nwin + w, processed := stepB.processed + 1 }
    | _ => stepB

/-- The sequential station loop of `Pyaflowa.process_event`: fold
`process_station` over the station codes. -/
def process_stations (plot : Bool) (runs : List (StationRun × String))
    (st : IOState) : IOState :=
  runs.foldl (fun acc pr => process_station plot pr.1 pr.2 acc) st

/-! ## Multi-event fan-out (pyaflowa.py `Pyaflowa.multi_event_process`) -/

/-- `Pyaflowa.multi_event_process(source_names, **kwargs)`:
`executor.map(self.process_event, source_names, kwargs)` passes the kwargs
dict as a second iterable, so it zips `source_names` with the *keys* of the
kwargs dict and stops at the shorter of the two; each pair is applied as
`process_event(source_name, codes=key)`.  The results are zipped with
`source_names` again and keyed by the basename of the source name.
`process_event` is abstracted as a function argument. -/
def multi_event_process (process_event : String → String → Option ℚ)
    (source_names : List String) (kwargs_keys : List String) :
    List (String × Option ℚ) :=
  (source_names.zip
      ((source_names.zip kwargs_keys).map (fun p => process_event p.1 p.2))
    ).map (fun q => (py_basename q.1, q.2))

/-- The number of `process_event` invocations made by `multi_event_process`:
one per element of the zip of `source_names` with the kwargs keys. -/
def multi_event_calls (source_names kwargs_keys : List String) : ℕ :=
  (source_names.zip kwargs_keys).length

/-! ## Adjoint source ASCII output (write.py `write_adj_src_to_ascii`) -/

/-- The blank adjoint source derived from a real one: same time column,
amplitude column zeroed (`blank_adj_src[:, 1] = np.zeros(...)`). -/
def blank_rows (rows : List (ℚ × ℚ)) : List (ℚ × ℚ) :=
  rows.map (fun r => (r.1, 0))

/-- The blank-writing inner loop of `write_adj_src_to_ascii`: for each
component in `comp_list`, form the candidate code by swapping the last
character of the current code (`adj_src[:-1] + comp`, with underscores
replaced by dots); if no stored adjoint source matches it and it was not
already written, write a zero-amplitude copy of the current data and record
it in `already_written`.  The accumulator carries (files written so far,
already_written). -/
def write_blanks (codes : List String) (comp_list : List String)
    (adj_src : String) (rows : List (ℚ × ℚ))
    (acc : List (String × List (ℚ × ℚ)) × List String) :
    List (String × List (ℚ × ℚ)) × List String :=
  comp_list.foldl
    (fun a comp =>
      let station_blank := py_replace '_' '.' (py_drop_last adj_src ++ comp)
      if !(codes.contains (py_replace '.' '_' station_blank)) &&
         !(a.2.contains station_blank) then
        (a.1 ++ [(station_blank ++ ".adj", blank_rows rows)],
         a.2 ++ [station_blank])
      else a)
    acc

/-- `write_adj_src_to_ascii`: the stored adjoint sources are code ↦ data
pairs (two-column (time, amplitude) arrays).  For each stored source, write
its file (code with dots, `.adj` suffix), then write blanks for the missing
components.  Returns the written files — (name, rows) in write order. -/
def write_adj_src_to_ascii (adjsrcs : List (String × List (ℚ × ℚ)))
    (comp_list : List String) : List (String × List (ℚ × ℚ)) :=
  let codes := adjsrcs.map Prod.fst
  (adjsrcs.foldl
    (fun acc p =>
      let station := py_replace '_' '.' p.1
      write_blanks codes comp_list p.1 p.2
        (acc.1 ++ [(station ++ ".adj", p.2)], acc.2))
    ([], [])).1

/-! ## Adjoint station list (pyaflowa.py
`Pyaflowa._write_specfem_stations_adjoint_to_disk` and write.py
`write_stations_adjoint`) -/

/-- `Pyaflowa._write_specfem_stations_adjoint_to_disk`: from the basenames of
the `.adj` files take the first two dot-separated tokens (`[NET, STA]`);
walk the STATIONS file and copy exactly the lines whose first two whitespace
tokens reversed (`[STA, NET][::-1]`) occur among them, verbatim and in input
order. -/
def write_specfem_stations_adjoint (adj_basenames : List String)
    (lines : List String) : List String :=
  let adjoint_stations := adj_basenames.map
    (fun f => (py_split_char '.' f).take 2)
  lines.foldl
    (fun out line =>
      if adjoint_stations.contains ((py_split_ws line).take 2).reverse then
        out ++ [line]
      else out)
    []

/-- The line-copying loop of write.py `write_stations_adjoint`: keep a line
when its first whitespace token (`line.split()[0]`) is among the station
names; a line with no tokens raises `IndexError`, modelled as `none`. -/
def wsa_loop (stas : List String) : List String → List String →
    Option (List String)
  | [], out => some out
  | line :: rest, out =>
      match (py_split_ws line).head? with
      | none => none
      | some tok0 =>
          wsa_loop stas rest (if stas.contains tok0 then out ++ [line] else out)

/-- write.py `write_stations_adjoint`: the station names
(`code.split('_')[1]`) of the dataset adjoint-source codes form the
membership set; a STATIONS line is kept when its first whitespace token
(`line.split()[0]`) is among them.  An `IndexError` (malformed code, or a
line with no tokens) is modelled as `none`. -/
def write_stations_adjoint (adj_codes : List String) (lines : List String) :
    Option (List String) := do
  let stas ← adj_codes.mapM (fun c => (py_split_char '_' c).get? 1)
  wsa_loop stas lines []

/-- The claim's filter, stated from the spec's words: the adjoint station
list contains exactly those input lines whose (NET, STA) pair is a member of
the set of stations possessing at least one adjoint source, copied verbatim
in the original order. -/
def claimed_stations_adjoint (pairs : List (List String))
    (lines : List String) : List String :=
  lines.filter (fun line => pairs.contains ((py_split_ws line).take 2).reverse)

/-! # Theorems -/

/-! ## Helper lemmas -/

/-- `gd_syn` only writes the synthetic-stream slot. -/
theorem gd_syn_fields (g : GatherFns) (code : String) (c : Crate) :
    (gd_syn g code c).station_code = c.station_code ∧
    (gd_syn g code c).inv = c.inv ∧
    (gd_syn g code c).st_obs = c.st_obs := by
  unfold gd_syn
  by_cases h : truthy_list c.st_syn
  · simp [h]
  · cases g.synthetic code <;> simp [h]

/-- `gd_obs` only writes the stream slots. -/
theorem gd_obs_fields (g : GatherFns) (code : String) (c : Crate) :
    (gd_obs g code c).station_code = c.station_code ∧
    (gd_obs g code c).inv = c.inv := by
  unfold gd_obs
  by_cases h : truthy_list c.st_obs
  · simp [h, (gd_syn_fields g code c).1, (gd_syn_fields g code c).2.1]
  · cases hobs : g.observed code with
    | none => simp [h, hobs]
    | some obs =>
        simp [h, hobs,
          (gd_syn_fields g code { c with st_obs := some obs }).1,
          (gd_syn_fields g code { c with st_obs := some obs }).2.1]

/-- `gd_inv` does not touch the station code. -/
theorem gd_inv_station_code (g : GatherFns) (code : String) (c : Crate) :
    (gd_inv g code c).station_code = c.station_code := by
  unfold gd_inv
  by_cases h : truthy_list c.inv
  · simp [h, (gd_obs_fields g code c).1]
  · cases hinv : g.station code with
    | none => simp [h, hinv]
    | some inv =>
        simp [h, hinv, (gd_obs_fields g code { c with inv := some inv }).1]

/-- Writing a slot with the value it already holds is the identity. -/
theorem crate_update_syn_self (c : Crate) (x : Option (List ℕ))
    (h : c.st_syn = x) : { c with st_syn := x } = c := by
  cases c; cases h; rfl

theorem crate_update_obs_self (c : Crate) (x : Option (List ℕ))
    (h : c.st_obs = x) : { c with st_obs := x } = c := by
  cases c; cases h; rfl

theorem crate_update_inv_self (c : Crate) (x : Option (List ℕ))
    (h : c.inv = x) : { c with inv := x } = c := by
  cases c; cases h; rfl

theorem crate_update_code_self (c : Crate) (x : Option String)
    (h : c.station_code = x) : { c with station_code := x } = c := by
  cases c; cases h; rfl

/-- The synthetic-stream step is idempotent. -/
theorem gd_syn_idem (g : GatherFns) (code : String) (c : Crate) :
    gd_syn g code (gd_syn g code c) = gd_syn g code c := by
  by_cases h : truthy_list c.st_syn
  · simp [gd_syn, h]
  · cases hs : g.synthetic code with
    | none => simp [gd_syn, h, hs]
    | some syn =>
      have h1 : gd_syn g code c = { c with st_syn := some syn } := by
        simp [gd_syn, h, hs]
      rw [h1]
      by_cases h2 : truthy_list (some syn)
      · simp [gd_syn, h2]
      · simp [gd_syn, h2, hs]

/-- The observed-stream step composed with the synthetic step is
idempotent. -/
theorem gd_obs_idem (g : GatherFns) (code : String) (c : Crate) :
    gd_obs g code (gd_obs g code c) = gd_obs g code c := by
  by_cases h : truthy_list c.st_obs
  · have h1 : gd_obs g code c = gd_syn g code c := by simp [gd_obs, h]
    rw [h1]
    have h2 : truthy_list (gd_syn g code c).st_obs = true := by
      rw [(gd_syn_fields g code c).2.2]; exact h
    simp [gd_obs, h2, gd_syn_idem]
  · cases hobs : g.observed code with
    | none =>
        have h1 : gd_obs g code c = c := by simp [gd_obs, h, hobs]
        rw [h1, h1]
    | some obs =>
        have h1 : gd_obs g code c = gd_syn g code { c with st_obs := some obs } := by
          simp [gd_obs, h, hobs]
        rw [h1]
        have hfix : (gd_syn g code { c with st_obs := some obs }).st_obs =
            some obs :=
          (gd_syn_fields g code { c with st_obs := some obs }).2.2
        by_cases h2 : truthy_list (some obs)
        · have h3 : truthy_list (gd_syn g code
              { c with st_obs := some obs }).st_obs = true := by
            rw [hfix]; exact h2
          simp [gd_obs, h3, gd_syn_idem]
        · have h3 : truthy_list (gd_syn g code
              { c with st_obs := some obs }).st_obs = false := by
            rw [hfix]; simpa using h2
          have h4 : { gd_syn g code { c with st_obs := some obs } with
              st_obs := some obs } =
              gd_syn g code { c with st_obs := some obs } :=
            crate_update_obs_self _ _ hfix
          simp only [gd_obs, h3, Bool.false_eq_true, if_false, hobs, h4,
            gd_syn_idem]

/-- The inventory step composed with the downstream steps is idempotent. -/
theorem gd_inv_idem (g : GatherFns) (code : String) (c : Crate) :
    gd_inv g code (gd_inv g code c) = gd_inv g code c := by
  by_cases h : truthy_list c.inv
  · have h1 : gd_inv g code c = gd_obs g code c := by simp [gd_inv, h]
    rw [h1]
    have h2 : truthy_list (gd_obs g code c).inv = true := by
      rw [(gd_obs_fields g code c).2]; exact h
    simp [gd_inv, h2, gd_obs_idem]
  · cases hinv : g.station code with
    | none =>
        have h1 : gd_inv g code c = c := by simp [gd_inv, h, hinv]
        rw [h1, h1]
    | some inv =>
        have h1 : gd_inv g code c = gd_obs g code { c with inv := some inv } := by
          simp [gd_inv, h, hinv]
        rw [h1]
        have hfix : (gd_obs g code { c with inv := some inv }).inv =
            some inv :=
          (gd_obs_fields g code { c with inv := some inv }).2
        by_cases h2 : truthy_list (some inv)
        · have h3 : truthy_list (gd_obs g code
              { c with inv := some inv }).inv = true := by
            rw [hfix]; exact h2
          simp [gd_inv, h3, gd_obs_idem]
        · have h3 : truthy_list (gd_obs g code
              { c with inv := some inv }).inv = false := by
            rw [hfix]; simpa using h2
          have h4 : { gd_obs g code { c with inv := some inv } with
              inv := some inv } =
              gd_obs g code { c with inv := some inv } :=
            crate_update_inv_self _ _ hfix
          simp only [gd_inv, h3, Bool.false_eq_true, if_false, hinv, h4,
            gd_obs_idem]

/-- Unfolding equation for `gd_code`. -/
theorem gd_code_eq (code : String) (c : Crate) :
    gd_code code c =
      if truthy_str c.station_code then c
      else { c with station_code := some code } := rfl

/-- The station-code slot after `gd_code`. -/
theorem gd_code_sc (code : String) (c : Crate) :
    (gd_code code c).station_code =
      if truthy_str c.station_code then c.station_code else some code := by
  rw [gd_code_eq]
  by_cases h : truthy_str c.station_code <;> simp [h]

/-- The station-code step is idempotent, and re-running it after the
downstream steps changes nothing. -/
theorem gd_code_stable (g : GatherFns) (code : String) (c : Crate) :
    gd_code code (gd_inv g code (gd_code code c)) =
      gd_inv g code (gd_code code c) := by
  have hsc : (gd_inv g code (gd_code code c)).station_code =
      (gd_code code c).station_code := gd_inv_station_code g code _
  rw [gd_code_eq]
  by_cases ht : truthy_str (gd_inv g code (gd_code code c)).station_code
  · rw [if_pos ht]
  · rw [if_neg ht]
    by_cases h : truthy_str c.station_code
    · exact absurd (by rw [hsc, gd_code_sc, if_pos h]; exact h) ht
    · exact crate_update_code_self _ _
        (by rw [hsc, gd_code_sc, if_neg h])

/-- A truthy synthetic-stream slot is never rewritten by `gd_syn`. -/
theorem gd_syn_syn_of_truthy (g : GatherFns) (code : String) (c : Crate)
    (h : truthy_list c.st_syn) : (gd_syn g code c).st_syn = c.st_syn := by
  simp [gd_syn, h]

/-- A truthy synthetic-stream slot is never rewritten by `gd_obs`. -/
theorem gd_obs_syn_of_truthy (g : GatherFns) (code : String) (c : Crate)
    (h : truthy_list c.st_syn) : (gd_obs g code c).st_syn = c.st_syn := by
  unfold gd_obs
  by_cases ho : truthy_list c.st_obs
  · simp [ho, gd_syn_syn_of_truthy g code c h]
  · cases hobs : g.observed code with
    | none => simp [ho, hobs]
    | some obs =>
        simpa [ho, hobs] using
          gd_syn_syn_of_truthy g code { c with st_obs := some obs } h

/-- A truthy synthetic-stream slot is never rewritten by `gd_inv`. -/
theorem gd_inv_syn_of_truthy (g : GatherFns) (code : String) (c : Crate)
    (h : truthy_list c.st_syn) : (gd_inv g code c).st_syn = c.st_syn := by
  unfold gd_inv
  by_cases hi : truthy_list c.inv
  · simp [hi, gd_obs_syn_of_truthy g code c h]
  · cases hinv : g.station code with
    | none => simp [hi, hinv]
    | some inv =>
        simpa [hi, hinv] using
          gd_obs_syn_of_truthy g code { c with inv := some inv } h

/-- A truthy observed-stream slot is never rewritten by `gd_obs`. -/
theorem gd_obs_obs_of_truthy (g : GatherFns) (code : String) (c : Crate)
    (h : truthy_list c.st_obs) : (gd_obs g code c).st_obs = c.st_obs := by
  simp [gd_obs, h, (gd_syn_fields g code c).2.2]

/-- A truthy observed-stream slot is never rewritten by `gd_inv`. -/
theorem gd_inv_obs_of_truthy (g : GatherFns) (code : String) (c : Crate)
    (h : truthy_list c.st_obs) : (gd_inv g code c).st_obs = c.st_obs := by
  unfold gd_inv
  by_cases hi : truthy_list c.inv
  · simp [hi, gd_obs_obs_of_truthy g code c h]
  · cases hinv : g.station code with
    | none => simp [hi, hinv]
    | some inv =>
        simpa [hi, hinv] using
          gd_obs_obs_of_truthy g code { c with inv := some inv } h

/-- A truthy inventory slot is never rewritten by `gd_inv`. -/
theorem gd_inv_inv_of_truthy (g : GatherFns) (code : String) (c : Crate)
    (h : truthy_list c.inv) : (gd_inv g code c).inv = c.inv := by
  simp [gd_inv, h, (gd_obs_fields g code c).2]

/-- Folding the line-copying loop of the STATIONS_ADJOINT writer is the
corresponding filter. -/
theorem foldl_append_filter (p : String → Bool) (lines : List String)
    (acc : List String) :
    lines.foldl (fun out line => if p line then out ++ [line] else out) acc =
      acc ++ lines.filter p := by
  induction lines generalizing acc with
  | nil => simp
  | cons l rest ih =>
      by_cases h : p l <;> simp [h, ih, List.filter_cons]

/-- The line-copying loop of `write_stations_adjoint` computes the
corresponding filter, provided every line has a first token. -/
theorem wsa_loop_filter (stas : List String) (lines : List String)
    (acc : List String)
    (h : ∀ line ∈ lines, (py_split_ws line) ≠ []) :
    wsa_loop stas lines acc =
      some (acc ++ lines.filter
        (fun line => stas.contains ((py_split_ws line).headD ""))) := by
  induction lines generalizing acc with
  | nil => simp [wsa_loop]
  | cons l rest ih =>
      obtain ⟨tok, toks, htoks⟩ :
          ∃ tok toks, py_split_ws l = tok :: toks := by
        cases hl : py_split_ws l with
        | nil => exact absurd hl (h l (List.mem_cons_self l rest))
        | cons a b => exact ⟨a, b, rfl⟩
      have hrest : ∀ line ∈ rest, (py_split_ws line) ≠ [] :=
        fun line hm => h line (List.mem_cons_of_mem l hm)
      by_cases hc : tok ∈ stas <;>
        simp [wsa_loop, htoks, hc, ih _ hrest, List.filter_cons]

/-! ## Claim theorems -/

/-- C1: for every raw misfit total `m` (as a list of per-source misfits
summing to `m`) and every nonzero window count `n`, the value written by
`write_misfit` is `0.5 * m / n`, and it coincides with the orchestrator
scaling `Pyaflowa._scale_raw_event_misfit`. -/
theorem C1_scaled_event_misfit_formula (ms : List ℚ) (n : ℕ) (h : n ≠ 0) :
    write_misfit_scaled ms n = Except.ok (1/2 * ms.sum / (n : ℚ)) ∧
    scale_raw_event_misfit ms.sum (n : ℤ) = write_misfit_scaled ms n := by
  have hsum : ms.foldl (· + ·) 0 = ms.sum := by
    rw [List.sum_eq_foldl]
  have hn : ((n : ℤ) = 0) = False := by
    simp [h]
  constructor
  · simp only [write_misfit_scaled, hsum, hn, if_false]
  · simp only [write_misfit_scaled, scale_raw_event_misfit, hsum, hn, if_false,
      Int.cast_natCast]

/-- Witness for C1 at a concrete input: misfits `[1, 2]`, 4 windows, scaled
misfit `3/8`. -/
theorem C1_scaled_event_misfit_formula_witness :
    write_misfit_scaled [1, 2] 4 = Except.ok (3/8) ∧
    scale_raw_event_misfit 3 4 = write_misfit_scaled [1, 2] 4 := by
  have h := C1_scaled_event_misfit_formula [1, 2] 4 (by decide)
  constructor
  · rw [h.1]; norm_num
  · have h2 := h.2
    norm_num [List.sum_cons, List.sum_nil] at h2 ⊢
    exact h2

/-- C2 counterexample: at the state with one successfully processed station
and a true zero accumulated misfit (misfit = 0, nwin = 3, processed = 1),
`finalize` returns `None` although `processed ≠ 0`, so `finalize` returning
`None` is not equivalent to `processed = 0`; moreover at misfit = 2, nwin = 0
`finalize` raises `ZeroDivisionError`. -/
theorem C2_finalize_none_counterexample :
    ¬ ((finalize ⟨0, 3, 1, 1, 0, [], []⟩ = Except.ok none) ↔
        (IOState.processed ⟨0, 3, 1, 1, 0, [], []⟩ = 0)) ∧
    finalize ⟨2, 0, 1, 1, 0, [], []⟩ = Except.error () := by
  constructor
  · intro h
    have h0 : finalize ⟨0, 3, 1, 1, 0, [], []⟩ = Except.ok none := by
      simp [finalize]
    exact absurd (h.mp h0) (by decide)
  · simp [finalize, scale_raw_event_misfit]

/-- C2 amended: `finalize` returns `None` exactly when the accumulated raw
misfit is zero (Python truthiness of `io.misfit`), regardless of how many
stations were processed; when the misfit is nonzero it returns the scaled
event misfit `0.5 * misfit / nwin`, and raises `ZeroDivisionError` if the
window count is zero. -/
theorem C2_finalize_amended (st : IOState) :
    (finalize st = Except.ok none ↔ st.misfit = 0) ∧
    (st.misfit ≠ 0 → st.nwin ≠ 0 →
      finalize st = Except.ok (some (1/2 * st.misfit / (st.nwin : ℚ)))) ∧
    (st.misfit ≠ 0 → st.nwin = 0 → finalize st = Except.error ()) := by
  refine ⟨?_, fun hm hn => ?_, fun hm hn => ?_⟩
  · by_cases hm : st.misfit = 0
    · simp [finalize, hm]
    · cases hs : scale_raw_event_misfit st.misfit st.nwin with
      | ok v => simp [finalize, hm, hs]
      | error e => simp [finalize, hm, hs]
  · simp [finalize, hm, scale_raw_event_misfit, hn]
  · simp [finalize, hm, scale_raw_event_misfit, hn]

/-- Witness for C2 amended at concrete states: misfit 3 over 4 windows scales
to 3/8; misfit 3 with zero windows raises. -/
theorem C2_finalize_amended_witness :
    finalize ⟨3, 4, 2, 2, 0, [], []⟩ = Except.ok (some (3/8)) ∧
    finalize ⟨3, 0, 2, 2, 0, [], []⟩ = Except.error () := by
  constructor
  · have h := (C2_finalize_amended ⟨3, 4, 2, 2, 0, [], []⟩).2.1
      (by norm_num) (by norm_num)
    rw [h]; norm_num
  · exact (C2_finalize_amended ⟨3, 0, 2, 2, 0, [], []⟩).2.2 (by norm_num) rfl

/-- C3: the fixed-window decision is a pure function of (iteration, step
count, policy): at iteration 1, step 0 it is `False` for every policy; for
the string policy `"ITER"` it is `False` exactly at step 0 and `True`
otherwise; for a boolean policy it is that boolean, except at the very first
evaluation where it is overridden to `False`. -/
theorem C3_check_fix_windows_policy (iteration step_count begin_iter : ℤ)
    (fw : FixWindows) :
    (iteration = 1 ∧ step_count = 0 →
      check_fix_windows iteration step_count begin_iter fw = Except.ok false) ∧
    (fw = FixWindows.str "ITER" →
      check_fix_windows iteration step_count begin_iter fw =
        Except.ok (decide (step_count ≠ 0))) ∧
    (∀ b, fw = FixWindows.bool b →
      check_fix_windows iteration step_count begin_iter fw =
        Except.ok (if iteration = 1 ∧ step_count = 0 then false else b)) := by
  refine ⟨fun h => ?_, fun h => ?_, fun b h => ?_⟩
  · simp [check_fix_windows, h.1, h.2]
  · subst h
    by_cases h1 : iteration = 1 ∧ step_count = 0
    · simp [check_fix_windows, h1, h1.2]
    · have hup : py_upper "ITER" = "ITER" := by decide
      by_cases h2 : step_count = 0 <;>
        simp [check_fix_windows, h1, h2, hup]
  · subst h
    by_cases h1 : iteration = 1 ∧ step_count = 0 <;>
      simp [check_fix_windows, h1]

/-- Witness for C3 at concrete inputs: first evaluation overrides to `False`;
`"ITER"` gives `True` at step 3 and `False` at step 0; a boolean policy
passes through after the first evaluation. -/
theorem C3_check_fix_windows_policy_witness :
    check_fix_windows 1 0 1 (FixWindows.str "ITER") = Except.ok false ∧
    check_fix_windows 2 3 1 (FixWindows.str "ITER") = Except.ok true ∧
    check_fix_windows 2 0 1 (FixWindows.str "ITER") = Except.ok false ∧
    check_fix_windows 2 3 1 (FixWindows.bool false) = Except.ok false := by
  refine ⟨?_, ?_, ?_, ?_⟩
  · exact (C3_check_fix_windows_policy 1 0 1 (FixWindows.str "ITER")).1
      ⟨rfl, rfl⟩
  · simpa using (C3_check_fix_windows_policy 2 3 1
      (FixWindows.str "ITER")).2.1 rfl
  · simpa using (C3_check_fix_windows_policy 2 0 1
      (FixWindows.str "ITER")).2.1 rfl
  · simpa using (C3_check_fix_windows_policy 2 3 1
      (FixWindows.bool false)).2.2 false rfl

/-- C4 (code bug, evaluated at the failing input): take a Manager whose
Gatherer (instance id 0) has already resolved event 42, with a configured
event id, and a remote service now serving event 99.  `reset("soft")`
replaces the Gatherer with a *new* instance (id 1) and re-fetches the event
from the remote service (99), losing the resolved 42; `reset("hard")` keeps
the old Gatherer instance with its resolved event.  This is the opposite of
the claim (and of the method's own docstring). -/
theorem C4_reset_soft_discards_gatherer :
    (manager_reset 99 ⟨1, some ⟨0, some 42⟩, some 42, some "2018p130600"⟩
        "soft").gatherer = some ⟨1, some 99⟩ ∧
    (manager_reset 99 ⟨1, some ⟨0, some 42⟩, some 42, some "2018p130600"⟩
        "hard").gatherer = some ⟨0, some 42⟩ := by
  constructor <;> rfl

/-- C5: gathering is idempotent without the overwrite flag — a second
`gather_data` call with `overwrite=False` leaves the crate exactly as the
first call left it (in particular every already-populated field is
unchanged) — and with `overwrite=True` every field (station code, inventory,
observed and synthetic streams) is re-fetched regardless of prior
contents. -/
theorem C5_gather_data_idempotent_overwrite (g : GatherFns) (code : String)
    (c : Crate) :
    (truthy_str c.station_code →
      (gather_data g code false c).station_code = c.station_code) ∧
    (truthy_list c.inv → (gather_data g code false c).inv = c.inv) ∧
    (truthy_list c.st_obs → (gather_data g code false c).st_obs = c.st_obs) ∧
    (truthy_list c.st_syn → (gather_data g code false c).st_syn = c.st_syn) ∧
    gather_data g code false (gather_data g code false c) =
      gather_data g code false c ∧
    (∀ inv obs syn, g.station code = some inv → g.observed code = some obs →
      g.synthetic code = some syn →
      gather_data g code true c = ⟨some code, some inv, some obs, some syn⟩) := by
  have hgd : gather_data g code false c = gd_inv g code (gd_code code c) := rfl
  refine ⟨fun h => ?_, fun h => ?_, fun h => ?_, fun h => ?_, ?_, ?_⟩
  · rw [hgd, gd_inv_station_code, gd_code_sc, if_pos h]
  · rw [hgd]
    have hc : (gd_code code c).inv = c.inv := by
      rw [gd_code_eq]; by_cases hs : truthy_str c.station_code <;> simp [hs]
    calc (gd_inv g code (gd_code code c)).inv
        = (gd_code code c).inv :=
          gd_inv_inv_of_truthy g code _ (by rw [hc]; exact h)
      _ = c.inv := hc
  · rw [hgd]
    have hc : (gd_code code c).st_obs = c.st_obs := by
      rw [gd_code_eq]; by_cases hs : truthy_str c.station_code <;> simp [hs]
    calc (gd_inv g code (gd_code code c)).st_obs
        = (gd_code code c).st_obs :=
          gd_inv_obs_of_truthy g code _ (by rw [hc]; exact h)
      _ = c.st_obs := hc
  · rw [hgd]
    have hc : (gd_code code c).st_syn = c.st_syn := by
      rw [gd_code_eq]; by_cases hs : truthy_str c.station_code <;> simp [hs]
    calc (gd_inv g code (gd_code code c)).st_syn
        = (gd_code code c).st_syn :=
          gd_inv_syn_of_truthy g code _ (by rw [hc]; exact h)
      _ = c.st_syn := hc
  · show gd_inv g code (gd_code code (gd_inv g code (gd_code code c))) =
      gd_inv g code (gd_code code c)
    rw [gd_code_stable, gd_inv_idem]
  · intro inv obs syn h1 h2 h3
    simp [gather_data, h1, h2, h3]

/-- Witness for C5 at a concrete input: a gatherer that always succeeds, on
an initially empty crate. -/
theorem C5_gather_data_idempotent_overwrite_witness :
    (gather_data ⟨fun _ => some [1], fun _ => some [2], fun _ => some [3]⟩
        "NZ.BFZ.10.HHZ" false
        ⟨some "old", some [5], some [6], some [7]⟩).station_code =
      some "old" ∧
    (gather_data ⟨fun _ => some [1], fun _ => some [2], fun _ => some [3]⟩
        "NZ.BFZ.10.HHZ" false
        ⟨some "old", some [5], some [6], some [7]⟩).inv = some [5] ∧
    (gather_data ⟨fun _ => some [1], fun _ => some [2], fun _ => some [3]⟩
        "NZ.BFZ.10.HHZ" false
        ⟨some "old", some [5], some [6], some [7]⟩).st_obs = some [6] ∧
    (gather_data ⟨fun _ => some [1], fun _ => some [2], fun _ => some [3]⟩
        "NZ.BFZ.10.HHZ" false
        ⟨some "old", some [5], some [6], some [7]⟩).st_syn = some [7] ∧
    gather_data ⟨fun _ => some [1], fun _ => some [2], fun _ => some [3]⟩
        "NZ.BFZ.10.HHZ" false
        (gather_data ⟨fun _ => some [1], fun _ => some [2], fun _ => some [3]⟩
          "NZ.BFZ.10.HHZ" false ⟨none, none, none, none⟩) =
      gather_data ⟨fun _ => some [1], fun _ => some [2], fun _ => some [3]⟩
        "NZ.BFZ.10.HHZ" false ⟨none, none, none, none⟩ ∧
    gather_data ⟨fun _ => some [1], fun _ => some [2], fun _ => some [3]⟩
        "NZ.BFZ.10.HHZ" true ⟨some "old", some [9], some [9], some [9]⟩ =
      ⟨some "NZ.BFZ.10.HHZ", some [1], some [2], some [3]⟩ := by
  refine ⟨?_, ?_, ?_, ?_, ?_, ?_⟩
  · exact (C5_gather_data_idempotent_overwrite
      ⟨fun _ => some [1], fun _ => some [2], fun _ => some [3]⟩
      "NZ.BFZ.10.HHZ" ⟨some "old", some [5], some [6], some [7]⟩).1
      (by decide)
  · exact (C5_gather_data_idempotent_overwrite
      ⟨fun _ => some [1], fun _ => some [2], fun _ => some [3]⟩
      "NZ.BFZ.10.HHZ" ⟨some "old", some [5], some [6], some [7]⟩).2.1
      (by decide)
  · exact (C5_gather_data_idempotent_overwrite
      ⟨fun _ => some [1], fun _ => some [2], fun _ => some [3]⟩
      "NZ.BFZ.10.HHZ" ⟨some "old", some [5], some [6], some [7]⟩).2.2.1
      (by decide)
  · exact (C5_gather_data_idempotent_overwrite
      ⟨fun _ => some [1], fun _ => some [2], fun _ => some [3]⟩
      "NZ.BFZ.10.HHZ" ⟨some "old", some [5], some [6], some [7]⟩).2.2.2.1
      (by decide)
  · exact (C5_gather_data_idempotent_overwrite
      ⟨fun _ => some [1], fun _ => some [2], fun _ => some [3]⟩
      "NZ.BFZ.10.HHZ" ⟨none, none, none, none⟩).2.2.2.2.1
  · exact (C5_gather_data_idempotent_overwrite
      ⟨fun _ => some [1], fun _ => some [2], fun _ => some [3]⟩
      "NZ.BFZ.10.HHZ" ⟨some "old", some [9], some [9], some [9]⟩).2.2.2.2.2
      [1] [2] [3] rfl rfl rfl

/-- C6: when `gather` raises (any required input missing), the orchestrator
catches it at the station level: the station is counted as attempted, the
error is logged as a warning, no counters or artifacts change otherwise, and
the event loop continues with the remaining stations from exactly that
state. -/
theorem C6_gather_error_aborts_only_station (plot : Bool) (run : StationRun)
    (code e : String) (rest : List (StationRun × String)) (st : IOState)
    (h : run.gather = Except.error e) :
    process_station plot run code st =
      { st with stations := st.stations + 1, log := st.log ++ [code, e] } ∧
    process_stations plot ((run, code) :: rest) st =
      process_stations plot rest
        { st with stations := st.stations + 1, log := st.log ++ [code, e] } := by
  have h1 : process_station plot run code st =
      { st with stations := st.stations + 1, log := st.log ++ [code, e] } := by
    simp [process_station, h]
  exact ⟨h1, by simp [process_stations, h1]⟩

/-- Witness for C6 at a concrete input: a station whose gather fails,
followed by a station that succeeds with misfit 2 over 4 windows. -/
theorem C6_gather_error_aborts_only_station_witness :
    process_station false ⟨Except.error "GatherError", FlowOutcome.ok 2 4⟩
        "NZ.BFZ.10.HHZ" ⟨0, 0, 0, 0, 0, [], []⟩ =
      ⟨0, 0, 1, 0, 0, [], ["NZ.BFZ.10.HHZ", "GatherError"]⟩ ∧
    process_stations false
        [(⟨Except.error "GatherError", FlowOutcome.ok 2 4⟩, "NZ.BFZ.10.HHZ"),
         (⟨Except.ok (), FlowOutcome.ok 2 4⟩, "NZ.WEL.10.HHZ")]
        ⟨0, 0, 0, 0, 0, [], []⟩ =
      ⟨2, 4, 2, 1, 0, [],
        ["NZ.BFZ.10.HHZ", "GatherError", "NZ.WEL.10.HHZ"]⟩ := by
  have h := C6_gather_error_aborts_only_station false
    ⟨Except.error "GatherError", FlowOutcome.ok 2 4⟩ "NZ.BFZ.10.HHZ"
    "GatherError"
    [(⟨Except.ok (), FlowOutcome.ok 2 4⟩, "NZ.WEL.10.HHZ")]
    ⟨0, 0, 0, 0, 0, [], []⟩ rfl
  constructor
  · rw [h.1]
    rfl
  · rw [h.2]
    norm_num [process_stations, process_station]

/-- C7 (code bug, evaluated at the failing input): with two source names and
no extra kwargs (the default), `multi_event_process` zips the sources with
the empty kwargs key iterable, so `process_event` is invoked zero times and
the returned mapping is empty — no entry per source name exists. -/
theorem C7_multi_event_process_empty (pe : String → String → Option ℚ) :
    multi_event_process pe ["path/to/eventA", "path/to/eventB"] [] = [] ∧
    multi_event_calls ["path/to/eventA", "path/to/eventB"] [] = 0 := by
  exact ⟨rfl, rfl⟩

/-- C8: for a station whose stored adjoint sources cover only component Z of
the configured {N, E, Z}, writing with blanks enabled produces exactly three
files — the real Z file and blank N and E files whose rows keep the Z time
column with an all-zero amplitude column — and no file name is written
twice. -/
theorem C8_blank_adjoint_sources (rows : List (ℚ × ℚ)) :
    write_adj_src_to_ascii [("NZ_BFZ_BXZ", rows)] ["N", "E", "Z"] =
      [("NZ.BFZ.BXZ.adj", rows),
       ("NZ.BFZ.BXN.adj", blank_rows rows),
       ("NZ.BFZ.BXE.adj", blank_rows rows)] ∧
    (blank_rows rows).length = rows.length ∧
    (blank_rows rows).map Prod.fst = rows.map Prod.fst ∧
    (∀ r ∈ blank_rows rows, r.2 = 0) ∧
    (["NZ.BFZ.BXZ.adj", "NZ.BFZ.BXN.adj", "NZ.BFZ.BXE.adj"] :
      List String).Nodup := by
  refine ⟨?_, ?_, ?_, ?_, by decide⟩
  · rfl
  · simp [blank_rows]
  · simp [blank_rows]
  · intro r hr
    simp only [blank_rows, List.mem_map] at hr
    obtain ⟨a, _, rfl⟩ := hr
    rfl

/-- C9 counterexample: two STATIONS lines share the station name BFZ under
different networks NZ and XX; the dataset holds one adjoint source, for
NZ.BFZ.  write.py `write_stations_adjoint` keeps *both* lines (it matches the
station name alone), whereas the claimed (NET, STA) filter keeps only the NZ
line. -/
theorem C9_stations_adjoint_counterexample :
    write_stations_adjoint ["NZ_BFZ_BXZ"]
        ["BFZ NZ -40.00 176.00 0.0 0.0", "BFZ XX -40.00 176.00 0.0 0.0"] =
      some ["BFZ NZ -40.00 176.00 0.0 0.0",
            "BFZ XX -40.00 176.00 0.0 0.0"] ∧
    claimed_stations_adjoint [["NZ", "BFZ"]]
        ["BFZ NZ -40.00 176.00 0.0 0.0", "BFZ XX -40.00 176.00 0.0 0.0"] =
      ["BFZ NZ -40.00 176.00 0.0 0.0"] ∧
    write_stations_adjoint ["NZ_BFZ_BXZ"]
        ["BFZ NZ -40.00 176.00 0.0 0.0", "BFZ XX -40.00 176.00 0.0 0.0"] ≠
      some (claimed_stations_adjoint [["NZ", "BFZ"]]
        ["BFZ NZ -40.00 176.00 0.0 0.0", "BFZ XX -40.00 176.00 0.0 0.0"]) := by
  refine ⟨by decide, by decide, by decide⟩

/-- C9 amended: the orchestrator's writer
`_write_specfem_stations_adjoint_to_disk` does satisfy the claim — it keeps
exactly the lines whose (NET, STA) pair, read from the `.adj` basenames, has
an adjoint source, verbatim and in order — while write.py
`write_stations_adjoint` filters by the station name alone (the line's first
token against the `STA` part of the dataset codes). -/
theorem C9_stations_adjoint_amended (adj_basenames adj_codes lines stas :
    List String)
    (hstas : adj_codes.mapM (fun c => (py_split_char '_' c).get? 1) =
      some stas)
    (hlines : ∀ line ∈ lines, (py_split_ws line) ≠ []) :
    write_specfem_stations_adjoint adj_basenames lines =
      claimed_stations_adjoint
        (adj_basenames.map (fun f => (py_split_char '.' f).take 2)) lines ∧
    write_stations_adjoint adj_codes lines =
      some (lines.filter
        (fun line => stas.contains ((py_split_ws line).headD ""))) := by
  constructor
  · show lines.foldl _ [] = _
    rw [foldl_append_filter]
    simp [claimed_stations_adjoint]
  · show (do
        let s ← adj_codes.mapM (fun c => (py_split_char '_' c).get? 1)
        wsa_loop s lines []) = _
    rw [hstas]
    simpa using wsa_loop_filter stas lines [] hlines

/-- Witness for C9 amended at the counterexample input: the pair filter
keeps only the NZ line while the station-name filter keeps both. -/
theorem C9_stations_adjoint_amended_witness :
    write_specfem_stations_adjoint ["NZ.BFZ.BXZ.adj"]
        ["BFZ NZ -40.00 176.00 0.0 0.0", "BFZ XX -40.00 176.00 0.0 0.0"] =
      ["BFZ NZ -40.00 176.00 0.0 0.0"] ∧
    write_stations_adjoint ["NZ_BFZ_BXZ"]
        ["BFZ NZ -40.00 176.00 0.0 0.0", "BFZ XX -40.00 176.00 0.0 0.0"] =
      some ["BFZ NZ -40.00 176.00 0.0 0.0",
            "BFZ XX -40.00 176.00 0.0 0.0"] := by
  have h := C9_stations_adjoint_amended ["NZ.BFZ.BXZ.adj"] ["NZ_BFZ_BXZ"]
    ["BFZ NZ -40.00 176.00 0.0 0.0", "BFZ XX -40.00 176.00 0.0 0.0"]
    ["BFZ"] (by decide) (by decide)
  constructor
  · rw [h.1]; decide
  · rw [h.2]; decide

/-- C10 counterexample: starting from a process with no handlers attached,
the second `setup` call leaves the `pyatoa` logger with 2 handlers, not the
1 it had after the first call — handlers stack instead of being replaced. -/
theorem C10_handler_stacking_counterexample :
    ¬ (create_event_log_handler (create_event_log_handler (fun _ => 0))
        "pyatoa" = create_event_log_handler (fun _ => 0) "pyatoa") := by
  decide

/-- C10 amended: each per-event `setup` call adds exactly one handler to each
of the process-global loggers `pyflex`, `pyadjoint` and `pyatoa` (and touches
no other logger), so a second call in the same process leaves each of these
loggers with one more handler than after the first call. -/
theorem C10_handler_stacking_amended (reg : LogRegistry) (name : String) :
    (name ∈ pyaflowa_logger_names →
      create_event_log_handler reg name = reg name + 1) ∧
    (name ∉ pyaflowa_logger_names →
      create_event_log_handler reg name = reg name) := by
  constructor <;> intro h <;> simp [create_event_log_handler, h]

/-- Witness for C10 amended: one setup call on a fresh process attaches one
handler to the `pyatoa` logger and none to an unrelated logger. -/
theorem C10_handler_stacking_amended_witness :
    create_event_log_handler (fun _ => 0) "pyatoa" = 1 ∧
    create_event_log_handler (fun _ => 0) "obspy" = 0 := by
  constructor
  · have h := (C10_handler_stacking_amended (fun _ => 0) "pyatoa").1
      (by decide)
    simpa using h
  · have h := (C10_handler_stacking_amended (fun _ => 0) "obspy").2
      (by decide)
    simpa using h

end Pyatoa
